import Mathlib

/-!
Verification development for the AggieBuddie gym-recommendation backend.

The Python sources are shallowly embedded:
* `backend/services/location_optimizer.py` → the `LocationOptimizer` namespace
  (walking times are injected as a function argument, mirroring the
  `distance_service` constructor dependency; Python `float` scores are
  modelled exactly as rationals `ℚ`; `sorted(..., key=score)` is a stable
  ascending sort, modelled by `List.insertionSort`, Mathlib's stable sort).
* `backend/services/distance_service.py` → the `DistanceService` namespace
  (trigonometric float arithmetic is modelled over `ℝ`; raised `ValueError`s
  become `Except.error`; location dicts with possibly-missing keys become
  structures with `Option` fields).
* `backend/services/schedule_service.py` and
  `Python_Files/free_time_blocks_update.py` → the `ScheduleService` and
  `FreeTimeBlocksUpdate` namespaces (datetimes are seconds since an epoch,
  `.date()` is division by 86400, `strftime` of `HH:MM` is the minute of the
  day; the external `rrulestr` recurrence engine and the `re.sub` regex are
  injected as function arguments; Python exception flow becomes `Except`).
-/

/-! ### location_optimizer.py -/

namespace LocationOptimizer

/-- One entry of the list produced by `find_optimal_gyms`: the Python dict
with keys `gym`, `time_to_gym`, `time_from_gym`, `total_commute`,
`spare_time`, `score`, `utilization`.  Gyms/location dicts are opaque to the
optimizer, so they are a type parameter `α`. -/
structure CommuteOption (α : Type) where
  gym : α
  time_to_gym : ℕ
  time_from_gym : ℕ
  total_commute : ℕ
  spare_time : ℤ
  score : ℚ
  utilization : ℚ
deriving DecidableEq

/-- Python `round(q)` (no digits): round half to even, as used by
`round(x, 1)` in `find_optimal_gyms`. -/
def roundHalfEven (q : ℚ) : ℤ :=
  if q - ⌊q⌋ < 1/2 then ⌊q⌋
  else if q - ⌊q⌋ > 1/2 then ⌊q⌋ + 1
  else if ⌊q⌋ % 2 = 0 then ⌊q⌋ else ⌊q⌋ + 1

/-- Python `round(q, 1)`: one decimal digit, ties to even. -/
def pyRound1 (q : ℚ) : ℚ := (roundHalfEven (q * 10) : ℚ) / 10

/-- `LocationOptimizer._calculate_score`.  Arguments as in the source:
`time_to`, `time_from`, `spare`, `total_used`, `total_available`. -/
def calculate_score (time_to time_from : ℕ) (spare : ℤ)
    (total_used total_available : ℕ) : ℚ :=
  let total_commute : ℕ := time_to + time_from
  let commute_score : ℚ := (total_commute : ℚ) * 2.0
  let imbalance : ℤ := |(time_to : ℤ) - (time_from : ℤ)|
  let imbalance_penalty : ℚ := (imbalance : ℚ) * 0.5
  let spare_penalty : ℚ :=
    if spare < 5 then 20
    else if spare > 20 then (spare : ℚ) * 0.3
    else 0
  let utilization : ℚ := (total_used : ℚ) / (total_available : ℚ)
  let utilization_bonus : ℚ :=
    if 0.70 ≤ utilization ∧ utilization ≤ 0.90 then -5
    else if utilization > 0.90 then 10
    else (1 - utilization) * 10
  commute_score + imbalance_penalty + spare_penalty + utilization_bonus

/-- The dict appended to `feasible` for one gym that passed the feasibility
check: `spare = available_minutes - total_needed`, score from
`_calculate_score` with `total_used = total_needed + buffer`, and
`utilization = round((total_needed / available_minutes) * 100, 1)` (note:
without the buffer, and as a percentage). -/
def buildOption {α : Type} (walkTime : α → α → ℕ) (previous_loc next_loc : α)
    (available_minutes activity_minutes : ℕ) (gym : α) : CommuteOption α :=
  let time_to := walkTime previous_loc gym
  let time_from := walkTime gym next_loc
  let total_needed := time_to + activity_minutes + time_from
  let spare : ℤ := (available_minutes : ℤ) - (total_needed : ℤ)
  { gym := gym
    time_to_gym := time_to
    time_from_gym := time_from
    total_commute := time_to + time_from
    spare_time := spare
    score := calculate_score time_to time_from spare (total_needed + 5)
               available_minutes
    utilization := pyRound1 ((total_needed : ℚ) / (available_minutes : ℚ) * 100) }

/-- The feasibility-filter loop of `find_optimal_gyms`: the `feasible`
list, in input encounter order, before sorting.  `walkTime` stands for
`self.distance_service.calculate_walking_time`; the kept gyms are those
with `total_needed + buffer <= available_minutes`, `buffer = 5`. -/
def feasibleOptions {α : Type} (walkTime : α → α → ℕ) (previous_loc next_loc : α)
    (available_minutes activity_minutes : ℕ) (available_gyms : List α) :
    List (CommuteOption α) :=
  available_gyms.filterMap fun gym =>
    if walkTime previous_loc gym + activity_minutes + walkTime gym next_loc + 5
        ≤ available_minutes then
      some (buildOption walkTime previous_loc next_loc available_minutes
        activity_minutes gym)
    else none

/-- `LocationOptimizer.find_optimal_gyms`: filter to feasible gyms, then
`sorted(feasible, key=lambda x: x['score'])` — a stable ascending sort. -/
def find_optimal_gyms {α : Type} (walkTime : α → α → ℕ) (previous_loc next_loc : α)
    (available_minutes activity_minutes : ℕ) (available_gyms : List α) :
    List (CommuteOption α) :=
  List.insertionSort (fun x y => x.score ≤ y.score)
    (feasibleOptions walkTime previous_loc next_loc available_minutes
      activity_minutes available_gyms)

/-- The scoring function as the specification words it, for destination
outbound/return walking legs: `commute_total * 2.0` plus `|outbound -
return| * 0.5` plus the spare-time component on
`spare = available - (outbound + activity + return)` plus the utilization
component on `utilization = (outbound + activity + return + 5) / available`. -/
def specScore (outbound ret available_minutes activity_minutes : ℕ) : ℚ :=
  let spare : ℤ := (available_minutes : ℤ) - ((outbound + activity_minutes + ret : ℕ) : ℤ)
  let utilization : ℚ :=
    ((outbound + activity_minutes + ret + 5 : ℕ) : ℚ) / (available_minutes : ℚ)
  ((outbound + ret : ℕ) : ℚ) * 2.0
  + (|(outbound : ℤ) - (ret : ℤ)| : ℚ) * 0.5
  + (if spare < 5 then 20 else if spare > 20 then (spare : ℚ) * 0.3 else 0)
  + (if 0.70 ≤ utilization ∧ utilization ≤ 0.90 then -5
     else if utilization > 0.90 then 10
     else (1 - utilization) * 10)

end LocationOptimizer

/-! ### distance_service.py -/

namespace DistanceService

/-- The `coordinates` sub-dict of a location; `Option` models possibly
missing `latitude`/`longitude` keys (a missing key raises `KeyError` in the
source).  Values are exact rationals standing for the Python floats. -/
structure Coordinates where
  latitude : Option ℚ
  longitude : Option ℚ
deriving DecidableEq

/-- A location dict; `Option` models a missing `coordinates` key. -/
structure Location where
  coordinates : Option Coordinates
deriving DecidableEq

/-- `DistanceService.EARTH_RADIUS_M`. -/
noncomputable def EARTH_RADIUS_M : ℝ := 6371000

/-- `DistanceService.WALKING_SPEED_MPH`. -/
noncomputable def WALKING_SPEED_MPH : ℝ := 3.5

/-- `DistanceService.CAMPUS_BUFFER`. -/
noncomputable def CAMPUS_BUFFER : ℝ := 1.2

/-- `math.radians`. -/
noncomputable def radians (x : ℝ) : ℝ := x * Real.pi / 180

/-- `math.atan2 y x`, via the complex argument. -/
noncomputable def atan2 (y x : ℝ) : ℝ := Complex.arg ⟨x, y⟩

/-- The haversine computation of `calculate_distance` on four extracted
coordinates (already known to be present). -/
noncomputable def haversineMeters (lat1 lon1 lat2 lon2 : ℝ) : ℝ :=
  let lat1_rad := radians lat1
  let lon1_rad := radians lon1
  let lat2_rad := radians lat2
  let lon2_rad := radians lon2
  let dlat := lat2_rad - lat1_rad
  let dlon := lon2_rad - lon1_rad
  let a := Real.sin (dlat / 2) ^ 2 +
    Real.cos lat1_rad * Real.cos lat2_rad * Real.sin (dlon / 2) ^ 2
  let c := 2 * atan2 (Real.sqrt a) (Real.sqrt (1 - a))
  EARTH_RADIUS_M * c

/-- `DistanceService.calculate_distance`: any missing `coordinates`,
`latitude` or `longitude` key raises `ValueError` (here `Except.error`);
otherwise the haversine distance in meters is returned.  The source applies
no range check to the coordinate values. -/
noncomputable def calculate_distance (loc_a loc_b : Location) : Except String ℝ :=
  match loc_a.coordinates, loc_b.coordinates with
  | some coords_a, some coords_b =>
    match coords_a.latitude, coords_a.longitude,
          coords_b.latitude, coords_b.longitude with
    | some lat1, some lon1, some lat2, some lon2 =>
      .ok (haversineMeters (lat1 : ℝ) (lon1 : ℝ) (lat2 : ℝ) (lon2 : ℝ))
    | _, _, _, _ => .error "Invalid location coordinates"
  | _, _ => .error "Invalid location coordinates"

/-- `DistanceService.meters_to_miles`. -/
noncomputable def meters_to_miles (meters : ℝ) : ℝ := meters * 0.000621371

/-- `DistanceService.calculate_walking_time`: distance → miles → hours at
`WALKING_SPEED_MPH` → minutes → ×`CAMPUS_BUFFER` → `math.ceil`.  A
`ValueError` from `calculate_distance` propagates. -/
noncomputable def calculate_walking_time (loc_a loc_b : Location) : Except String ℤ :=
  (calculate_distance loc_a loc_b).map fun distance_m =>
    ⌈meters_to_miles distance_m / WALKING_SPEED_MPH * 60 * CAMPUS_BUFFER⌉

/-- True when every coordinate field the source reads is present (no
`KeyError`/`TypeError` on access). -/
def hasCoords (l : Location) : Bool :=
  match l.coordinates with
  | some c => c.latitude.isSome && c.longitude.isSome
  | none => false

/-- The specification's GeoPoint validity: latitude in `[-90, 90]` and
longitude in `[-180, 180]` (and all fields present). -/
def coordsInRange (l : Location) : Bool :=
  match l.coordinates with
  | some c =>
    match c.latitude, c.longitude with
    | some la, some lo =>
      decide (-90 ≤ la) && decide (la ≤ 90) && decide (-180 ≤ lo) && decide (lo ≤ 180)
    | _, _ => false
  | none => false

/-- A location whose fields are all present, built from raw coordinates. -/
def mkLoc (la lo : ℚ) : Location := ⟨some ⟨some la, some lo⟩⟩

/-- The walking-time estimate as the specification words it:
`ceil(distance_miles / walking_speed_mph * 60 * terrain_buffer)` with
`walking_speed_mph = 3.5`, `terrain_buffer = 1.2`, and `distance_miles` the
haversine great-circle distance (Earth radius 6,371,000 m) in miles. -/
noncomputable def specWalkingMinutes (la lo la2 lo2 : ℚ) : ℤ :=
  ⌈meters_to_miles (haversineMeters (la : ℝ) (lo : ℝ) (la2 : ℝ) (lo2 : ℝ))
    / 3.5 * 60 * 1.2⌉

/-- A location with an out-of-range latitude (100°), all fields present. -/
def outOfRangeLoc : Location := mkLoc 100 0

/-- A location with in-range coordinates, all fields present. -/
def campusLoc : Location := mkLoc (30613/1000) (-(96341/1000))

end DistanceService

/-! ### schedule_service.py -/

namespace ScheduleService

/-- One class dict produced by `parse_ics_content` (and consumed by
`calculate_free_blocks` / `assign_building_to_class`).  `start` and `end`
are datetimes modelled as seconds since an epoch that falls on a midnight;
`building_id` starts out as Python `None`. -/
structure ClassEvent where
  course_id : String
  start : ℕ
  «end» : ℕ
  location : String
  description : String
  uid : String
  building_id : Option String
deriving DecidableEq

/-- `cls['start'].date()`: the calendar day of a datetime. -/
def dateOf (e : ClassEvent) : ℕ := e.start / 86400

/-- `dt.strftime('%H:%M')`, read back as the minute of the day (seconds are
truncated by the format). -/
def strfHM (t : ℕ) : ℕ := t % 86400 / 60

/-- One free-block dict emitted by `calculate_free_blocks`.  `start_time`
and `end_time` are the `HH:MM` strings, kept as minute-of-day numbers;
`previous_class_location` keeps the `Option` of `building_id` (the
`.get('building_id', 'Unknown')` default never fires, the key is always
present). -/
structure FreeBlock where
  date : ℕ
  start_time : ℕ
  end_time : ℕ
  previous_class_location : Option String
  next_class_location : Option String
  available_minutes : ℕ
  previous_class_name : String
  next_class_name : String
deriving DecidableEq

/-- The free-block dict built for the gap between `current` and `next_cls`:
`available_minutes = int((gap_end - gap_start).total_seconds() / 60)`. -/
def mkFreeBlock (date : ℕ) (current next_cls : ClassEvent) : FreeBlock :=
  { date := date
    start_time := strfHM current.«end»
    end_time := strfHM next_cls.start
    previous_class_location := current.building_id
    next_class_location := next_cls.building_id
    available_minutes := (next_cls.start - current.«end») / 60
    previous_class_name := current.course_id
    next_class_name := next_cls.course_id }

/-- `classes_by_date[date].append(cls)`, creating the entry at the end when
the key is new — Python dicts keep insertion order. -/
def insertGrouped (d : ℕ) (cls : ClassEvent) :
    List (ℕ × List ClassEvent) → List (ℕ × List ClassEvent)
  | [] => [(d, [cls])]
  | p :: rest =>
    if p.1 = d then (p.1, p.2 ++ [cls]) :: rest
    else p :: insertGrouped d cls rest

/-- The grouping loop of `calculate_free_blocks` over `classes`. -/
def groupInto (acc : List (ℕ × List ClassEvent)) :
    List ClassEvent → List (ℕ × List ClassEvent)
  | [] => acc
  | c :: rest => groupInto (insertGrouped (dateOf c) c acc) rest

/-- `classes_by_date`: classes grouped by `start.date()` in insertion
order. -/
def groupByDate (classes : List ClassEvent) : List (ℕ × List ClassEvent) :=
  groupInto [] classes

/-- The adjacent-pair scan `for i in range(len(day_classes) - 1)`: a block
for each consecutive pair with `gap_start < gap_end`. -/
def dayGaps (date : ℕ) : List ClassEvent → List FreeBlock
  | current :: next_cls :: rest =>
    (if current.«end» < next_cls.start then [mkFreeBlock date current next_cls] else [])
      ++ dayGaps date (next_cls :: rest)
  | _ => []

/-- `ScheduleService.calculate_free_blocks`.  The `start_of_day` and
`end_of_day` arguments are split on the colon in the source but never used
afterwards; each day's classes are sorted by `start` (a stable sort) and
scanned for gaps. -/
def calculate_free_blocks (schedule : List ClassEvent)
    (start_of_day end_of_day : String) : List FreeBlock :=
  (groupByDate schedule).flatMap fun p =>
    dayGaps p.1 (List.insertionSort (fun a b : ClassEvent => a.start ≤ b.start) p.2)

/-- `ScheduleService.assign_building_to_class`: the in-place mutation of the
schedule is modelled by returning the updated class list together with the
`updated_count` the source returns. -/
def assign_building_to_class (schedule : List ClassEvent)
    (course_id building_id : String) : List ClassEvent × ℕ :=
  match schedule with
  | [] => ([], 0)
  | cls :: rest =>
    let r := assign_building_to_class rest course_id building_id
    if cls.course_id = course_id then
      ({ cls with building_id := some building_id } :: r.1, r.2 + 1)
    else
      (cls :: r.1, r.2)

/-- One `VEVENT` component as `parse_ics_content` reads it: `dtstart` and
`dtend` may be absent, `rrule` is absent for single events. -/
structure VEvent where
  summary : String
  dtstart : Option ℕ
  dtend : Option ℕ
  location : String
  description : String
  uid : String
  rrule : Option String
deriving DecidableEq

/-- The `DTSTART:...\nRRULE:...` string handed to `rrulestr` (the
`strftime('%Y%m%dT%H%M%S')` rendering of the naive start is abstracted to
its decimal form). -/
def mkRuleStr (start_dt_naive : ℕ) (rrule : String) : String :=
  "DTSTART:" ++ toString start_dt_naive ++ "\n" ++ "RRULE:" ++ rrule

/-- The event dict built for one occurrence of a recurring event. -/
def mkOccurrence (component : VEvent) (occurrence_start duration : ℕ) : ClassEvent :=
  { course_id := component.summary
    start := occurrence_start
    «end» := occurrence_start + duration
    location := component.location
    description := component.description
    uid := component.uid
    building_id := none }

/-- The event dict built for a non-recurring event. -/
def mkSingleEvent (component : VEvent) (start_dt end_dt : ℕ) : ClassEvent :=
  { course_id := component.summary
    start := start_dt
    «end» := end_dt
    location := component.location
    description := component.description
    uid := component.uid
    building_id := none }

/-- `ScheduleService._parse_recurring_events`.  The external recurrence
engine `dateutil.rrule.rrulestr` is injected: `prim` is the first
`rrulestr(..., ignoretz=True)` call, `retry` the second call after the
`re.sub` strip of the `Z` marker (injected as `stripZ`); each returns the
naive occurrence starts or a `ValueError`.  The first failure is caught and
retried; a failure of the retry is NOT caught and propagates to the
caller. -/
def parse_recurring_events (prim retry : String → Except String (List ℕ))
    (stripZ : String → String) (component : VEvent) (start_dt end_dt : ℕ) :
    Except String (List ClassEvent) :=
  let duration := end_dt - start_dt
  let rrule_str := mkRuleStr start_dt (component.rrule.getD "")
  match prim rrule_str with
  | .ok occurrences => .ok (occurrences.map fun s => mkOccurrence component s duration)
  | .error _ =>
    match retry (stripZ rrule_str) with
    | .ok occurrences => .ok (occurrences.map fun s => mkOccurrence component s duration)
    | .error msg => .error msg

/-- The `for component in cal.walk()` loop of `parse_ics_content`,
accumulating `classes`; an uncaught exception from
`_parse_recurring_events` aborts the whole loop. -/
def parseLoop (prim retry : String → Except String (List ℕ))
    (stripZ : String → String) :
    List VEvent → List ClassEvent → Except String (List ClassEvent)
  | [], classes => .ok classes
  | component :: rest, classes =>
    match component.dtstart, component.dtend with
    | some start_dt, some end_dt =>
      match component.rrule with
      | some _ =>
        match parse_recurring_events prim retry stripZ component start_dt end_dt with
        | .ok recurring_events => parseLoop prim retry stripZ rest (classes ++ recurring_events)
        | .error msg => .error msg
      | none => parseLoop prim retry stripZ rest (classes ++ [mkSingleEvent component start_dt end_dt])
    | _, _ => parseLoop prim retry stripZ rest classes

/-- `ScheduleService.parse_ics_content`, on a calendar already decoded into
its `VEVENT` components (the `Calendar.from_ical` decoding is external). -/
def parse_ics_content (prim retry : String → Except String (List ℕ))
    (stripZ : String → String) (cal : List VEvent) : Except String (List ClassEvent) :=
  parseLoop prim retry stripZ cal []

end ScheduleService

/-! ### Python_Files/free_time_blocks_update.py -/

namespace FreeTimeBlocksUpdate

/-- `day_start = time(8, 0)`, as a second of the day. -/
def day_start : ℕ := 8 * 3600

/-- `day_end = time(18, 0)`, as a second of the day. -/
def day_end : ℕ := 18 * 3600

/-- The between-classes loop of `calculate_free_time_blocks` over
`class_times` (pairs of start/end times of day, in seconds); each emitted
block is the pair of times its formatted string shows. -/
def betweenBlocks : List (ℕ × ℕ) → List (ℕ × ℕ)
  | (_, current_end) :: (next_start, e2) :: rest =>
    (if current_end < next_start then [(current_end, next_start)] else [])
      ++ betweenBlocks ((next_start, e2) :: rest)
  | _ => []

/-- The per-day body of `calculate_free_time_blocks`: a leading block from
`day_start` to the first class when `day_start < first_class_start`, the
between-class gaps, and a trailing block from the last class to `day_end`
when `last_class_end < day_end`.  Blocks are kept as (start, end) pairs of
seconds of the day; the `strftime` formatting and the `'No free time'`
placeholder string are presentation and are dropped. -/
def dayFreeBlocks (class_times : List (ℕ × ℕ)) : List (ℕ × ℕ) :=
  (match class_times with
   | [] => []
   | (first_class_start, _) :: _ =>
     if day_start < first_class_start then [(day_start, first_class_start)] else [])
  ++ betweenBlocks class_times
  ++ (match class_times.getLast? with
      | none => []
      | some (_, last_class_end) =>
        if last_class_end < day_end then [(last_class_end, day_end)] else [])

/-- `calculate_free_time_blocks` over the `df.groupby('date')` result: per
date, the day's class times (sorted by class start, a stable sort) are
scanned for free blocks. -/
def calculate_free_time_blocks (days : List (ℕ × List (ℕ × ℕ))) :
    List (ℕ × List (ℕ × ℕ)) :=
  days.map fun p =>
    (p.1, dayFreeBlocks (List.insertionSort (fun a b : ℕ × ℕ => a.1 ≤ b.1) p.2))

end FreeTimeBlocksUpdate

/-! ### Derived predicates and concrete demonstration inputs -/

namespace ScheduleService

/-- `b` is the free block of a genuine gap between two events of
`schedule`: some event ends strictly before another starts, and `b` records
that gap's `HH:MM` endpoints and its whole-minute length. -/
def comesFromGap (schedule : List ClassEvent) (b : FreeBlock) : Prop :=
  ∃ current next_cls, current ∈ schedule ∧ next_cls ∈ schedule ∧
    current.«end» < next_cls.start ∧
    b.start_time = strfHM current.«end» ∧
    b.end_time = strfHM next_cls.start ∧
    b.available_minutes = (next_cls.start - current.«end») / 60

/-- MATH 304, 09:00:00–09:50:00 on day 0. -/
def demoEventA : ClassEvent :=
  { course_id := "MATH 304", start := 32400, «end» := 35400,
    location := "BLOC", description := "", uid := "uidA", building_id := none }

/-- CSCE 221, 11:00:00–11:50:00 on day 0. -/
def demoEventB : ClassEvent :=
  { course_id := "CSCE 221", start := 39600, «end» := 42600,
    location := "ZACH", description := "", uid := "uidB", building_id := none }

/-- A one-day schedule: first class at 09:00 (after the 08:00 day start),
last class ending 11:50 (before the 18:00 day end), one 70-minute gap. -/
def demoSchedule : List ClassEvent := [demoEventA, demoEventB]

/-- The 09:50–11:00 gap block of `demoSchedule`. -/
def demoBlock : FreeBlock := mkFreeBlock 0 demoEventA demoEventB

/-- 09:00:00–09:59:30: ends 30 seconds before the next class starts. -/
def subMinuteEventA : ClassEvent :=
  { course_id := "A", start := 32400, «end» := 35970,
    location := "", description := "", uid := "uidS1", building_id := none }

/-- 10:00:00–10:50:00. -/
def subMinuteEventB : ClassEvent :=
  { course_id := "B", start := 36000, «end» := 39000,
    location := "", description := "", uid := "uidS2", building_id := none }

/-- A schedule whose only gap is 30 seconds long. -/
def subMinuteSchedule : List ClassEvent := [subMinuteEventA, subMinuteEventB]

/-- A recurrence engine stub on which every rule text fails to parse
(`rrulestr` raising `ValueError` on both the primary and the retry call). -/
def failParse : String → Except String (List ℕ) := fun _ => .error "Invalid rrule"

/-- A plain non-recurring event that parses fine on its own. -/
def goodVEvent : VEvent :=
  { summary := "MATH 304", dtstart := some 32400, dtend := some 35400,
    location := "BLOC", description := "", uid := "uid1", rrule := none }

/-- A recurring event whose rule text both parse paths reject. -/
def badVEvent : VEvent :=
  { summary := "CSCE 221", dtstart := some 39600, dtend := some 42600,
    location := "ZACH", description := "", uid := "uid2",
    rrule := some "FREQ=WEEKLY;UNTIL=20251231T000000Z" }

/-- A calendar holding one good single event and one bad recurring event. -/
def demoCal : List VEvent := [goodVEvent, badVEvent]

end ScheduleService

namespace LocationOptimizer

/-- A stub distance service on which every walk takes 2 minutes. -/
def constWalk : ℕ → ℕ → ℕ := fun _ _ => 2

/-- The option `find_optimal_gyms constWalk 0 0 100 61` builds for gym `g`:
both legs 2 minutes, `total_needed = 65`, feasible since `70 ≤ 100`. -/
def demoOption (g : ℕ) : CommuteOption ℕ :=
  buildOption constWalk 0 0 100 61 g

end LocationOptimizer

/-! ### Supporting lemmas -/

open LocationOptimizer DistanceService ScheduleService FreeTimeBlocksUpdate

theorem buildOption_gym {α : Type} (walkTime : α → α → ℕ) (p n : α)
    (av act : ℕ) (g : α) : (buildOption walkTime p n av act g).gym = g := rfl

theorem feasibleOptions_cons {α : Type} (walkTime : α → α → ℕ) (p n : α)
    (av act : ℕ) (g : α) (gyms : List α) :
    feasibleOptions walkTime p n av act (g :: gyms) =
      (if walkTime p g + act + walkTime g n + 5 ≤ av
       then [buildOption walkTime p n av act g] else [])
      ++ feasibleOptions walkTime p n av act gyms := by
  unfold feasibleOptions
  rw [List.filterMap_cons]
  by_cases h : walkTime p g + act + walkTime g n + 5 ≤ av <;> simp [h]

theorem map_gym_feasibleOptions {α : Type} (walkTime : α → α → ℕ) (p n : α)
    (av act : ℕ) (gyms : List α) :
    (feasibleOptions walkTime p n av act gyms).map CommuteOption.gym
      = gyms.filter (fun g => walkTime p g + act + walkTime g n + 5 ≤ av) := by
  induction gyms with
  | nil => rfl
  | cons g gyms ih =>
    rw [feasibleOptions_cons, List.filter_cons]
    by_cases h : walkTime p g + act + walkTime g n + 5 ≤ av
    · simp [h, ih, buildOption_gym]
    · simp [h, ih]

theorem mem_feasibleOptions {α : Type} {walkTime : α → α → ℕ} {p n : α}
    {av act : ℕ} {gyms : List α} {o : CommuteOption α} :
    o ∈ feasibleOptions walkTime p n av act gyms ↔
      ∃ g, g ∈ gyms ∧ walkTime p g + act + walkTime g n + 5 ≤ av ∧
        o = buildOption walkTime p n av act g := by
  unfold feasibleOptions
  rw [List.mem_filterMap]
  constructor
  · rintro ⟨g, hg, hfg⟩
    by_cases h : walkTime p g + act + walkTime g n + 5 ≤ av
    · rw [if_pos h] at hfg
      exact ⟨g, hg, h, (Option.some_inj.mp hfg).symm⟩
    · rw [if_neg h] at hfg
      cases hfg
  · rintro ⟨g, hg, h, rfl⟩
    exact ⟨g, hg, by rw [if_pos h]⟩

theorem feasibleOptions_40_60 {α : Type} (walkTime : α → α → ℕ) (p n : α)
    (gyms : List α) : feasibleOptions walkTime p n 40 60 gyms = [] := by
  induction gyms with
  | nil => rfl
  | cons g gyms ih =>
    simp only [feasibleOptions, List.filterMap_cons] at *
    rw [if_neg (by omega)]
    exact ih

theorem buildOption_score {α : Type} (walkTime : α → α → ℕ) (p n : α)
    (av act : ℕ) (g : α) :
    (buildOption walkTime p n av act g).score
      = specScore (walkTime p g) (walkTime g n) av act := by
  show calculate_score (walkTime p g) (walkTime g n)
      ((av : ℤ) - ((walkTime p g + act + walkTime g n : ℕ) : ℤ))
      (walkTime p g + act + walkTime g n + 5) av
    = specScore (walkTime p g) (walkTime g n) av act
  unfold calculate_score specScore
  norm_num

theorem buildOption_utilization {α : Type} (walkTime : α → α → ℕ) (p n : α)
    (av act : ℕ) (g : α) :
    (buildOption walkTime p n av act g).utilization
      = pyRound1 (((walkTime p g + act + walkTime g n : ℕ) : ℚ) / (av : ℚ) * 100) := rfl

theorem demo_feasibleOptions :
    feasibleOptions constWalk 0 0 100 61 [0, 1] = [demoOption 0, demoOption 1] := rfl

theorem demo_find_single :
    find_optimal_gyms constWalk 0 0 100 61 [0] = [demoOption 0] := rfl

theorem pyRound1_demo : (demoOption 0).utilization = 65 := by
  show pyRound1 (((2 + 61 + 2 : ℕ) : ℚ) / ((100 : ℕ) : ℚ) * 100) = 65
  have h : ((2 + 61 + 2 : ℕ) : ℚ) / ((100 : ℕ) : ℚ) * 100 = ((650 : ℤ) : ℚ) / 10 := by
    norm_num
  rw [h]
  unfold pyRound1 roundHalfEven
  norm_num

theorem mem_dayGaps {d : ℕ} {b : FreeBlock} :
    ∀ {l : List ClassEvent}, b ∈ dayGaps d l →
      ∃ current next_cls, current ∈ l ∧ next_cls ∈ l ∧
        current.«end» < next_cls.start ∧ b = mkFreeBlock d current next_cls := by
  intro l
  induction l with
  | nil => intro h; simp [dayGaps] at h
  | cons c tl ih =>
    cases tl with
    | nil => intro h; simp [dayGaps] at h
    | cons n rest =>
      intro hb
      simp only [dayGaps] at hb
      rcases List.mem_append.1 hb with h | h
      · by_cases hlt : c.«end» < n.start
        · rw [if_pos hlt] at h
          simp only [List.mem_singleton] at h
          exact ⟨c, n, List.mem_cons_self c _,
            List.mem_cons_of_mem c (List.mem_cons_self n _), hlt, h⟩
        · rw [if_neg hlt] at h
          simp at h
      · obtain ⟨c', n', hc', hn', hlt, rfl⟩ := ih h
        exact ⟨c', n', List.mem_cons_of_mem c hc', List.mem_cons_of_mem c hn',
          hlt, rfl⟩

theorem mem_insertGrouped {d : ℕ} {c e : ClassEvent} :
    ∀ {acc : List (ℕ × List ClassEvent)} {p : ℕ × List ClassEvent},
      p ∈ insertGrouped d c acc → e ∈ p.2 →
      (∃ q ∈ acc, e ∈ q.2) ∨ e = c := by
  intro acc
  induction acc with
  | nil =>
    intro p hp he
    simp only [insertGrouped, List.mem_singleton] at hp
    subst hp
    simp only [List.mem_singleton] at he
    exact Or.inr he
  | cons q rest ih =>
    intro p hp he
    simp only [insertGrouped] at hp
    by_cases hd : q.1 = d
    · rw [if_pos hd] at hp
      rcases List.mem_cons.1 hp with rfl | hp'
      · rcases List.mem_append.1 he with h | h
        · exact Or.inl ⟨q, List.mem_cons_self q _, h⟩
        · simp only [List.mem_singleton] at h
          exact Or.inr h
      · exact Or.inl ⟨p, List.mem_cons_of_mem q hp', he⟩
    · rw [if_neg hd] at hp
      rcases List.mem_cons.1 hp with rfl | hp'
      · exact Or.inl ⟨p, List.mem_cons_self p _, he⟩
      · rcases ih hp' he with ⟨q', hq', he'⟩ | h
        · exact Or.inl ⟨q', List.mem_cons_of_mem q hq', he'⟩
        · exact Or.inr h

theorem mem_groupInto {e : ClassEvent} :
    ∀ (cls : List ClassEvent) (acc : List (ℕ × List ClassEvent))
      (p : ℕ × List ClassEvent), p ∈ groupInto acc cls → e ∈ p.2 →
      (∃ q ∈ acc, e ∈ q.2) ∨ e ∈ cls := by
  intro cls
  induction cls with
  | nil => intro acc p hp he; exact Or.inl ⟨p, hp, he⟩
  | cons c rest ih =>
    intro acc p hp he
    simp only [groupInto] at hp
    rcases ih (insertGrouped (dateOf c) c acc) p hp he with ⟨q, hq, he'⟩ | h
    · rcases mem_insertGrouped hq he' with ⟨q', hq', he''⟩ | rfl
      · exact Or.inl ⟨q', hq', he''⟩
      · exact Or.inr (List.mem_cons_self e _)
    · exact Or.inr (List.mem_cons_of_mem c h)

theorem mem_calculate_free_blocks {schedule : List ClassEvent}
    {sod eod : String} {b : FreeBlock}
    (hb : b ∈ calculate_free_blocks schedule sod eod) :
    ∃ current next_cls d, current ∈ schedule ∧ next_cls ∈ schedule ∧
      current.«end» < next_cls.start ∧ b = mkFreeBlock d current next_cls := by
  unfold calculate_free_blocks at hb
  rw [List.mem_flatMap] at hb
  obtain ⟨p, hp, hbp⟩ := hb
  obtain ⟨c, n, hc, hn, hlt, rfl⟩ := mem_dayGaps hbp
  rw [List.mem_insertionSort] at hc hn
  rcases mem_groupInto schedule [] p hp hc with ⟨q, hq, _⟩ | hcs
  · simp at hq
  rcases mem_groupInto schedule [] p hp hn with ⟨q, hq, _⟩ | hns
  · simp at hq
  exact ⟨c, n, p.1, hcs, hns, hlt, rfl⟩

theorem parseLoop_abort (prim retry : String → Except String (List ℕ))
    (stripZ : String → String) (e : VEvent) (s t : ℕ) (r : String)
    (hs : e.dtstart = some s) (ht : e.dtend = some t) (hr : e.rrule = some r)
    (hp : (prim (mkRuleStr s r)).isOk = false)
    (hrt : (retry (stripZ (mkRuleStr s r))).isOk = false) :
    ∀ (cal : List VEvent) (acc : List ClassEvent), e ∈ cal →
      (parseLoop prim retry stripZ cal acc).isOk = false := by
  intro cal
  induction cal with
  | nil => intro acc he; cases he
  | cons c rest ih =>
    intro acc he
    rcases List.mem_cons.1 he with rfl | he'
    · obtain ⟨summary, ds, de, loc, desc, uid, rr⟩ := e
      simp only [VEvent.dtstart] at hs
      simp only [VEvent.dtend] at ht
      simp only [VEvent.rrule] at hr
      subst hs; subst ht; subst hr
      simp only [parseLoop, parse_recurring_events, Option.getD]
      cases hpm : prim (mkRuleStr s r) with
      | ok v => rw [hpm] at hp; simp [Except.isOk, Except.toBool] at hp
      | error m1 =>
        cases hrm : retry (stripZ (mkRuleStr s r)) with
        | ok v => rw [hrm] at hrt; simp [Except.isOk, Except.toBool] at hrt
        | error m2 => rfl
    · obtain ⟨summary, ds, de, loc, desc, uid, rr⟩ := c
      cases ds with
      | none => simp only [parseLoop]; exact ih acc he'
      | some s' =>
        cases de with
        | none => simp only [parseLoop]; exact ih acc he'
        | some t' =>
          cases rr with
          | none => simp only [parseLoop]; exact ih _ he'
          | some r' =>
            simp only [parseLoop]
            cases hpr : parse_recurring_events prim retry stripZ
                ⟨summary, some s', some t', loc, desc, uid, some r'⟩ s' t' with
            | ok evs => exact ih _ he'
            | error m => rfl

/-! ### Claim theorems -/

/-- C1: the list returned by `find_optimal_gyms` contains exactly those
candidate gyms `D` with
`walk(prev, D) + activity_minutes + walk(D, next) + 5 ≤ available_minutes`
(as a permutation of the feasibility-filtered candidate list — infeasible
gyms are excluded entirely), and with `available_minutes = 40` and
`activity_minutes = 60` the result is the empty list, not an error. -/
theorem find_optimal_gyms_feasibility {α : Type} (walkTime : α → α → ℕ)
    (previous_loc next_loc : α) (available_minutes activity_minutes : ℕ)
    (available_gyms : List α) :
    ((find_optimal_gyms walkTime previous_loc next_loc available_minutes
        activity_minutes available_gyms).map CommuteOption.gym).Perm
      (available_gyms.filter fun g =>
        walkTime previous_loc g + activity_minutes + walkTime g next_loc + 5
          ≤ available_minutes)
    ∧ find_optimal_gyms walkTime previous_loc next_loc 40 60 available_gyms = [] := by
  constructor
  · have hperm :
        (find_optimal_gyms walkTime previous_loc next_loc available_minutes
            activity_minutes available_gyms).Perm
          (feasibleOptions walkTime previous_loc next_loc available_minutes
            activity_minutes available_gyms) :=
      List.perm_insertionSort _ _
    have := hperm.map CommuteOption.gym
    rwa [map_gym_feasibleOptions] at this
  · rw [find_optimal_gyms, feasibleOptions_40_60]
    rfl

/-- C3: every option returned by `find_optimal_gyms` carries the score the
specification describes: `commute_total * 2.0` + `|outbound - return| * 0.5`
+ the spare-time component + the utilization component, with
`spare = available - (outbound + activity + return)` and
`utilization = (outbound + activity + return + 5) / available`. -/
theorem find_optimal_gyms_score_formula {α : Type} (walkTime : α → α → ℕ)
    (previous_loc next_loc : α) (available_minutes activity_minutes : ℕ)
    (available_gyms : List α) :
    ∀ o ∈ find_optimal_gyms walkTime previous_loc next_loc available_minutes
        activity_minutes available_gyms,
      o.score = specScore o.time_to_gym o.time_from_gym available_minutes
        activity_minutes := by
  intro o ho
  rw [find_optimal_gyms, List.mem_insertionSort, mem_feasibleOptions] at ho
  obtain ⟨g, _, _, rfl⟩ := ho
  exact buildOption_score walkTime previous_loc next_loc available_minutes
    activity_minutes g

/-- C3 witness: the option built for the demo input (2-minute legs, 61
minutes of activity in a 100-minute gap) satisfies the score formula. -/
theorem find_optimal_gyms_score_formula_witness :
    (demoOption 0).score
      = specScore (demoOption 0).time_to_gym (demoOption 0).time_from_gym 100 61 :=
  find_optimal_gyms_score_formula constWalk 0 0 100 61 [0] (demoOption 0)
    (by rw [demo_find_single]; exact List.mem_singleton.mpr rfl)

/-- C4: the sequence returned by `find_optimal_gyms` is sorted by
non-decreasing score, and two options with equal scores keep the relative
order they had in the feasibility-filtered list (which lists candidates in
input encounter order): Python's `sorted` is stable. -/
theorem find_optimal_gyms_sorted_stable {α : Type} (walkTime : α → α → ℕ)
    (previous_loc next_loc : α) (available_minutes activity_minutes : ℕ)
    (available_gyms : List α) :
    List.Pairwise (fun x y : CommuteOption α => x.score ≤ y.score)
      (find_optimal_gyms walkTime previous_loc next_loc available_minutes
        activity_minutes available_gyms)
    ∧ ∀ x y : CommuteOption α, x.score = y.score →
        [x, y].Sublist (feasibleOptions walkTime previous_loc next_loc
          available_minutes activity_minutes available_gyms) →
        [x, y].Sublist (find_optimal_gyms walkTime previous_loc next_loc
          available_minutes activity_minutes available_gyms) := by
  constructor
  · haveI : IsTotal (CommuteOption α) (fun x y => x.score ≤ y.score) :=
      ⟨fun a b => le_total a.score b.score⟩
    haveI : IsTrans (CommuteOption α) (fun x y => x.score ≤ y.score) :=
      ⟨fun a b c hab hbc => le_trans hab hbc⟩
    exact List.sorted_insertionSort _ _
  · intro x y hxy hsub
    exact List.sublist_insertionSort (List.pairwise_pair.mpr (le_of_eq hxy)) hsub

/-- C4 witness: two gyms with identical scores (both 2 minutes away) come
out in their input order. -/
theorem find_optimal_gyms_sorted_stable_witness :
    [demoOption 0, demoOption 1].Sublist (find_optimal_gyms constWalk 0 0 100 61 [0, 1]) :=
  (find_optimal_gyms_sorted_stable constWalk 0 0 100 61 [0, 1]).2
    (demoOption 0) (demoOption 1) rfl
    (by rw [demo_feasibleOptions])

/-- C8 counterexample: on the demo input the option's reported utilization
is `65` — `round((total_needed / available) * 100, 1)`, a percentage that
excludes the 5-minute buffer — whereas the claim's quantity
`(outbound + activity + return + 5) / available` is `70 / 100`; the two
differ. -/
theorem find_optimal_gyms_utilization_cx :
    (find_optimal_gyms constWalk 0 0 100 61 [0]).map CommuteOption.utilization
      = [(65 : ℚ)]
    ∧ (65 : ℚ) ≠ ((2 + 61 + 2 + 5 : ℕ) : ℚ) / ((100 : ℕ) : ℚ) := by
  constructor
  · rw [demo_find_single, List.map_singleton, pyRound1_demo]
  · norm_num

/-- C8 amended: the `utilization` value reported in every returned option is
`round((outbound + activity + return) / available * 100, 1)` — a
one-decimal percentage that excludes the safety buffer — not the
`(outbound + activity + return + buffer) / available` fraction the scoring
function uses. -/
theorem find_optimal_gyms_utilization_amended {α : Type} (walkTime : α → α → ℕ)
    (previous_loc next_loc : α) (available_minutes activity_minutes : ℕ)
    (available_gyms : List α) :
    ∀ o ∈ find_optimal_gyms walkTime previous_loc next_loc available_minutes
        activity_minutes available_gyms,
      o.utilization = pyRound1
        (((o.time_to_gym + activity_minutes + o.time_from_gym : ℕ) : ℚ)
          / (available_minutes : ℚ) * 100) := by
  intro o ho
  rw [find_optimal_gyms, List.mem_insertionSort, mem_feasibleOptions] at ho
  obtain ⟨g, _, _, rfl⟩ := ho
  exact buildOption_utilization walkTime previous_loc next_loc available_minutes
    activity_minutes g

/-- C8 amended witness: the demo option reports
`round((2 + 61 + 2) / 100 * 100, 1)`. -/
theorem find_optimal_gyms_utilization_amended_witness :
    (demoOption 0).utilization = pyRound1
      ((((demoOption 0).time_to_gym + 61 + (demoOption 0).time_from_gym : ℕ) : ℚ)
        / ((100 : ℕ) : ℚ) * 100) :=
  find_optimal_gyms_utilization_amended constWalk 0 0 100 61 [0] (demoOption 0)
    (by rw [demo_find_single]; exact List.mem_singleton.mpr rfl)

/-- C5 counterexample: two classes separated by a 30-second gap (09:59:30 →
10:00:00).  The guard `gap_start < gap_end` holds, so a FreeBlock IS
emitted, but `int(total_seconds / 60)` truncates to `available_minutes = 0`,
violating the claimed invariant `available_minutes > 0`. -/
theorem calculate_free_blocks_subminute_gap_cx :
    (calculate_free_blocks subMinuteSchedule "08:00" "18:00").map
        FreeBlock.available_minutes = [0]
    ∧ subMinuteEventA.«end» < subMinuteEventB.start := by decide

/-- C5 amended: every emitted FreeBlock comes from an adjacent pair with
`current.end < next.start` (strict; equal endpoints and overlaps produce
nothing) and records `available_minutes = floor((next.start - current.end)
in seconds / 60)` — which is `≥ 0`, and `> 0` whenever all event times are
whole minutes, but `0` for sub-minute gaps. -/
theorem calculate_free_blocks_gap_invariant (schedule : List ClassEvent)
    (start_of_day end_of_day : String) :
    ∀ b ∈ calculate_free_blocks schedule start_of_day end_of_day,
      comesFromGap schedule b
      ∧ ((∀ e ∈ schedule, 60 ∣ e.start ∧ 60 ∣ e.«end») →
          0 < b.available_minutes) := by
  intro b hb
  obtain ⟨c, n, d, hc, hn, hlt, rfl⟩ := mem_calculate_free_blocks hb
  refine ⟨⟨c, n, hc, hn, hlt, rfl, rfl, rfl⟩, ?_⟩
  intro hal
  have h1 : 60 ∣ n.start := (hal n hn).1
  have h2 : 60 ∣ c.«end» := (hal c hc).2
  have hdvd : 60 ∣ (n.start - c.«end») := Nat.dvd_sub' h1 h2
  have hpos : 0 < n.start - c.«end» := Nat.sub_pos_of_lt hlt
  have h60 : 60 ≤ n.start - c.«end» := Nat.le_of_dvd hpos hdvd
  show 0 < (n.start - c.«end») / 60
  exact Nat.div_pos h60 (by norm_num)

/-- C5 amended witness: the demo schedule's 09:50–11:00 block has positive
`available_minutes` (all its event times are minute-aligned). -/
theorem calculate_free_blocks_gap_invariant_witness :
    0 < demoBlock.available_minutes :=
  (calculate_free_blocks_gap_invariant demoSchedule "08:00" "18:00" demoBlock
    (by decide)).2 (by decide)

/-- C2 counterexample: on a day whose first class starts at 09:00 (after the
08:00 day start) and whose last class ends at 11:50 (before the 18:00 day
end), `calculate_free_blocks` emits only the 09:50–11:00 between-class gap —
no leading 08:00–09:00 block (no block starts at minute 480) and no
trailing 11:50–18:00 block, contrary to the claim. -/
theorem calculate_free_blocks_no_boundary_cx :
    (calculate_free_blocks demoSchedule "08:00" "18:00").map
        (fun b => (b.start_time, b.end_time)) = [(590, 660)]
    ∧ (480, 540) ∉ (calculate_free_blocks demoSchedule "08:00" "18:00").map
        (fun b => (b.start_time, b.end_time))
    ∧ (480 : ℕ) < strfHM demoEventA.start := by decide

/-- C2 amended: `calculate_free_blocks` emits only between-class gaps —
every emitted block arises from an adjacent event pair, never from the day
boundaries (its day-window arguments are parsed but unused).  The
leading/trailing behaviour exists only in the legacy
`calculate_free_time_blocks` (fixed 08:00–18:00 window): there a leading
block `[day_start, first.start)` is emitted when `day_start < first.start`,
a trailing block `[last.end, day_end)` when `last.end < day_end`, and the
between-class gaps are always part of the day's output. -/
theorem free_blocks_day_window_amended :
    (∀ (schedule : List ClassEvent) (sod eod : String),
      ∀ b ∈ calculate_free_blocks schedule sod eod, comesFromGap schedule b)
    ∧ (∀ (first_time : ℕ × ℕ) (rest : List (ℕ × ℕ)),
        day_start < first_time.1 →
        (day_start, first_time.1) ∈ dayFreeBlocks (first_time :: rest))
    ∧ (∀ (class_times : List (ℕ × ℕ)) (last_time : ℕ × ℕ),
        class_times.getLast? = some last_time →
        last_time.2 < day_end →
        (last_time.2, day_end) ∈ dayFreeBlocks class_times)
    ∧ (∀ class_times : List (ℕ × ℕ),
        (betweenBlocks class_times).Sublist (dayFreeBlocks class_times)) := by
  refine ⟨?_, ?_, ?_, ?_⟩
  · intro schedule sod eod b hb
    obtain ⟨c, n, d, hc, hn, hlt, rfl⟩ := mem_calculate_free_blocks hb
    exact ⟨c, n, hc, hn, hlt, rfl, rfl, rfl⟩
  · intro ft rest h
    obtain ⟨s, e⟩ := ft
    simp only [dayFreeBlocks]
    refine List.mem_append_left _ (List.mem_append_left _ ?_)
    rw [if_pos h]
    exact List.mem_singleton.mpr rfl
  · intro cts lt hlast h
    obtain ⟨s, e⟩ := lt
    simp only [dayFreeBlocks, hlast]
    refine List.mem_append_right _ ?_
    rw [if_pos h]
    exact List.mem_singleton.mpr rfl
  · intro cts
    simp only [dayFreeBlocks]
    exact (List.sublist_append_right _ _).trans (List.sublist_append_left _ _)

/-- C2 amended witness: the demo schedule's only service block is a
between-class gap, and on the legacy path the same day (09:00–09:50 and
11:00–11:50 classes) gets its leading 08:00–09:00 and trailing 11:50–18:00
blocks. -/
theorem free_blocks_day_window_amended_witness :
    comesFromGap demoSchedule demoBlock
    ∧ (day_start, 32400) ∈ dayFreeBlocks [(32400, 35400), (39600, 42600)]
    ∧ (42600, day_end) ∈ dayFreeBlocks [(32400, 35400), (39600, 42600)] :=
  ⟨free_blocks_day_window_amended.1 demoSchedule "08:00" "18:00" demoBlock (by decide),
   free_blocks_day_window_amended.2.1 (32400, 35400) [(39600, 42600)] (by decide),
   free_blocks_day_window_amended.2.2.1 [(32400, 35400), (39600, 42600)]
     (39600, 42600) (by decide) (by decide)⟩

/-- C6 counterexample: a calendar holding one good single event and one
recurring event whose rule text fails both the primary and the retry parse.
The retry call is not wrapped in a `try`, so the error escapes
`_parse_recurring_events` and `parse_ics_content` aborts: the whole parse
returns the error, not the remaining good event. -/
theorem parse_ics_content_abort_cx :
    parse_ics_content failParse failParse id demoCal = .error "Invalid rrule"
    ∧ parse_ics_content failParse failParse id [goodVEvent]
        = .ok [mkSingleEvent goodVEvent 32400 35400]
    ∧ parse_ics_content failParse failParse id demoCal
        ≠ .ok [mkSingleEvent goodVEvent 32400 35400] :=
  ⟨rfl, rfl, fun h => Except.noConfusion h⟩

/-- C6 amended: when one event's recurrence rule fails to parse under both
the primary and the strip-UTC-marker retry path, the exception propagates
out of `parse_ics_content` and the whole calendar parse fails — there is no
per-event isolation, and the remaining events are not returned. -/
theorem parse_ics_content_abort (prim retry : String → Except String (List ℕ))
    (stripZ : String → String) (cal : List VEvent) (e : VEvent) (s t : ℕ)
    (r : String) (he : e ∈ cal) (hs : e.dtstart = some s)
    (ht : e.dtend = some t) (hr : e.rrule = some r)
    (hp : (prim (mkRuleStr s r)).isOk = false)
    (hrt : (retry (stripZ (mkRuleStr s r))).isOk = false) :
    (parse_ics_content prim retry stripZ cal).isOk = false :=
  parseLoop_abort prim retry stripZ e s t r hs ht hr hp hrt cal [] he

/-- C6 amended witness: the demo calendar with an unparseable rule aborts. -/
theorem parse_ics_content_abort_witness :
    (parse_ics_content failParse failParse id demoCal).isOk = false :=
  parse_ics_content_abort failParse failParse id demoCal badVEvent 39600 42600
    "FREQ=WEEKLY;UNTIL=20251231T000000Z" (by decide) rfl rfl rfl rfl rfl

/-- C7 counterexample: a point with latitude 100 (outside `[-90, 90]`) and
all fields present is accepted by `calculate_distance` — a distance is
returned, no error is raised — even though the point fails the
specification's range check. -/
theorem calculate_distance_out_of_range_cx :
    (calculate_distance outOfRangeLoc campusLoc).isOk = true
    ∧ coordsInRange outOfRangeLoc = false := by
  refine ⟨rfl, ?_⟩
  show (decide ((-90 : ℚ) ≤ 100) && decide ((100 : ℚ) ≤ 90)
      && decide ((-180 : ℚ) ≤ 0) && decide ((0 : ℚ) ≤ 180)) = false
  rw [decide_eq_false (by norm_num : ¬ (100 : ℚ) ≤ 90)]
  simp

/-- C7 amended: `calculate_distance` raises `ValueError` exactly when a
`coordinates`, `latitude` or `longitude` field is missing on either point;
coordinate values are never range-checked, so out-of-range values yield a
computed distance instead of an error. -/
theorem calculate_distance_error_iff_missing (loc_a loc_b : Location) :
    (calculate_distance loc_a loc_b).isOk = (hasCoords loc_a && hasCoords loc_b) := by
  obtain ⟨ca⟩ := loc_a
  obtain ⟨cb⟩ := loc_b
  cases ca with
  | none =>
    cases cb with
    | none => rfl
    | some c2 =>
      obtain ⟨la2, lo2⟩ := c2
      cases la2 <;> cases lo2 <;> rfl
  | some c =>
    obtain ⟨la, lo⟩ := c
    cases cb with
    | none => cases la <;> cases lo <;> rfl
    | some c2 =>
      obtain ⟨la2, lo2⟩ := c2
      cases la <;> cases lo <;> cases la2 <;> cases lo2 <;> rfl

/-- C9: for every pair of points with all coordinate fields present,
`calculate_walking_time` returns exactly
`ceil(distance_miles / 3.5 * 60 * 1.2)` whole minutes, where
`distance_miles` is the haversine distance (Earth radius 6,371,000 m)
converted to miles — and the ceiling never under-estimates the buffered
walking time (always rounded up, never down). -/
theorem calculate_walking_time_spec (la lo la2 lo2 : ℚ) :
    calculate_walking_time (mkLoc la lo) (mkLoc la2 lo2)
      = .ok (specWalkingMinutes la lo la2 lo2)
    ∧ meters_to_miles (haversineMeters (la : ℝ) (lo : ℝ) (la2 : ℝ) (lo2 : ℝ))
        / 3.5 * 60 * 1.2 ≤ ((specWalkingMinutes la lo la2 lo2 : ℤ) : ℝ) :=
  ⟨rfl, Int.le_ceil _⟩

/-- C10: `assign_building_to_class` sets `building_id` on exactly the
classes whose `course_id` matches, leaves every other field (and every
non-matching class) unchanged, and returns the number of matching
classes. -/
theorem assign_building_to_class_spec (schedule : List ClassEvent)
    (course_id building_id : String) :
    (assign_building_to_class schedule course_id building_id).1
      = schedule.map (fun cls =>
          if cls.course_id = course_id
          then { cls with building_id := some building_id } else cls)
    ∧ (assign_building_to_class schedule course_id building_id).2
      = schedule.countP (fun cls => cls.course_id == course_id) := by
  induction schedule with
  | nil => exact ⟨rfl, rfl⟩
  | cons c rest ih =>
    by_cases h : c.course_id = course_id
    · constructor
      · simp only [assign_building_to_class, if_pos h, List.map_cons, ih.1]
      · simp [assign_building_to_class, if_pos h, List.countP_cons, ih.2, h]
    · constructor
      · simp only [assign_building_to_class, if_neg h, List.map_cons, ih.1]
      · simp [assign_building_to_class, if_neg h, List.countP_cons, ih.2, h]
